import Mathlib

/-!
# SciDAVis plot layer (`Graph.h`): a shallow embedding of the inline members

The definitions below follow `src/libscidavis/src/Graph.h`.  Only the members whose bodies are
written in the header are embedded; members that the header merely declares (their bodies live in
other translation units) are taken as parameters where an inline member calls them.

Conventions
* C++ `int` is a 32 bit two's complement integer, `long` a 64 bit one (LP64).
* `QVector<T>` and `QList<T>` are modelled by `List T`; an index is an `Int`, as in Qt.
* Reading or writing a Qt container through `operator[]` outside `0 <= i < size()` violates the
  precondition of the operator (an assertion failure in debug builds, an out-of-bounds access
  otherwise).  The embedding reports it as `Fault.indexOutOfRange`.
-/

namespace SciDAVis

/-! ## Machine integers -/

/-- Range of the C++ type `int`. -/
def isInt (x : Int) : Prop := -2147483648 ≤ x ∧ x < 2147483648

/-- Range of the C++ type `long`. -/
def isLong (x : Int) : Prop := -9223372036854775808 ≤ x ∧ x < 9223372036854775808

instance (x : Int) : Decidable (isInt x) := by unfold isInt; infer_instance

instance (x : Int) : Decidable (isLong x) := by unfold isLong; infer_instance

/-- Two's complement reduction of an integer to 32 bits. -/
def wrapInt (x : Int) : Int := (x + 2147483648) % 4294967296 - 2147483648

/-- Values of the C++ type `int`. -/
abbrev CInt : Type := { x : Int // isInt x }

/-- Implicit conversion of a wider integer (`long`) to `int`. -/
def CInt.ofLong (x : Int) : CInt :=
  ⟨wrapInt x, by unfold isInt wrapInt; omega⟩

/-- Implicit conversion of an `int` to `long`; it keeps the value. -/
def CInt.toLong (x : CInt) : Int := x.val

/-! ## Qt containers -/

/-- Ways in which an inline member can go wrong. -/
inductive Fault where
  /-- A container was indexed outside `0 <= i < size()`. -/
  | indexOutOfRange
  /-- The exception `NoSuchObject` was thrown. -/
  | NoSuchObject
  deriving DecidableEq, Repr

deriving instance DecidableEq for Except

/-- Element access `v[i]` of `QVector` and `QList`. -/
def vecAt {α : Type} (v : List α) (i : Int) : Except Fault α :=
  if i < 0 then Except.error Fault.indexOutOfRange
  else
    match v[i.toNat]? with
    | some x => Except.ok x
    | none => Except.error Fault.indexOutOfRange

/-- Element assignment `v[i] = x` of `QVector` and `QList`. -/
def vecSet {α : Type} (v : List α) (i : Int) (x : α) : Except Fault (List α) :=
  if i < 0 then Except.error Fault.indexOutOfRange
  else if i.toNat < v.length then Except.ok (v.set i.toNat x)
  else Except.error Fault.indexOutOfRange

/-- The scanning loop of `indexOf`: `n` is the position of the head of the remaining elements. -/
def indexOfLoop {α : Type} [DecidableEq α] (t : α) : List α → Int → Int
  | [], _ => -1
  | x :: xs, n => if x = t then n else indexOfLoop t xs (n + 1)

/-- Search `v.indexOf(t)` of `QVector` and `QList`, from position 0: the position of the first
element equal to `t`, or `-1`. -/
def indexOf {α : Type} [DecidableEq α] (v : List α) (t : α) : Int :=
  indexOfLoop t v 0

/-! ## Enumerations of `Graph` -/

/-- The enumeration `Graph::AxisType`. -/
inductive AxisType where
  | Numeric | Txt | Day | Month | Time | Date | ColHeader | DateTime
  deriving DecidableEq, Repr

/-- Integer value of an `AxisType` enumerator. -/
def AxisType.code : AxisType → Int
  | .Numeric => 0
  | .Txt => 1
  | .Day => 2
  | .Month => 3
  | .Time => 4
  | .Date => 5
  | .ColHeader => 6
  | .DateTime => 22

/-- The enumeration `Graph::MarkerType`. -/
inductive MarkerType where
  | None | Text | Arrow | Image
  deriving DecidableEq, Repr

/-- Integer value of a `MarkerType` enumerator. -/
def MarkerType.code : MarkerType → Int
  | .None => -1
  | .Text => 0
  | .Arrow => 1
  | .Image => 2

/-- The enumeration `Graph::CurveType`. -/
inductive CurveType where
  | Line | Scatter | LineSymbols | VerticalBars | Area | Pie | VerticalDropLines
  | Spline | HorizontalSteps | Histogram | HorizontalBars | VectXYXY | ErrorBars
  | Box | VectXYAM | VerticalSteps | ColorMap | GrayMap | ContourMap | Function
  deriving DecidableEq, Repr

/-- Integer value of a `CurveType` enumerator (no initialisers: counted from 0). -/
def CurveType.code : CurveType → Int
  | .Line => 0
  | .Scatter => 1
  | .LineSymbols => 2
  | .VerticalBars => 3
  | .Area => 4
  | .Pie => 5
  | .VerticalDropLines => 6
  | .Spline => 7
  | .HorizontalSteps => 8
  | .Histogram => 9
  | .HorizontalBars => 10
  | .VectXYXY => 11
  | .ErrorBars => 12
  | .Box => 13
  | .VectXYAM => 14
  | .VerticalSteps => 15
  | .ColorMap => 16
  | .GrayMap => 17
  | .ContourMap => 18
  | .Function => 19

/-! ## The layer state -/

/-- A `QPoint`: two `int` coordinates. -/
structure QPoint where
  x : CInt
  y : CInt
  deriving DecidableEq

/-- A `QPen`.  The inline members only copy values of this type, so the embedding keeps the
identity of a value and nothing of its contents. -/
structure QPen where
  ident : Nat
  deriving DecidableEq

/-- A `QFont`, kept by identity like `QPen`. -/
structure QFont where
  ident : Nat
  deriving DecidableEq

/-- A `QColor`, kept by identity like `QPen`. -/
structure QColor where
  ident : Nat
  deriving DecidableEq

/-- A `QtPenStyle`, kept by identity like `QPen`. -/
structure QtPenStyle where
  ident : Nat
  deriving DecidableEq

/-- The data members of `Graph` that the inline members read or write, and the members that hold
the copied marker. -/
structure Graph where
  /-- `QStringList axesFormulas` -/
  axesFormulas : List String
  /-- `QStringList axesFormatInfo` -/
  axesFormatInfo : List String
  /-- `QList<int> axisType` -/
  axisType : List CInt
  /-- `MarkerType selectedMarkerType` -/
  selectedMarkerType : MarkerType
  /-- `QVector<int> c_type` -/
  c_type : List CInt
  /-- `QVector<int> c_keys` -/
  c_keys : List CInt
  /-- `QVector<int> d_lines` -/
  d_lines : List CInt
  /-- `QVector<int> d_images` -/
  d_images : List CInt
  /-- `QVector<int> d_texts` -/
  d_texts : List CInt
  /-- `QPoint auxMrkStart` -/
  auxMrkStart : QPoint
  /-- `QPoint auxMrkEnd` -/
  auxMrkEnd : QPoint
  /-- `QString auxMrkFileName` -/
  auxMrkFileName : String
  /-- `QString auxMrkText` -/
  auxMrkText : String
  /-- `int n_curves` -/
  n_curves : CInt
  /-- `long selectedMarker` -/
  selectedMarker : Int
  /-- `long legendMarkerID` -/
  legendMarkerID : Int
  /-- `QPen mrkLinePen` -/
  mrkLinePen : QPen
  /-- `QFont auxMrkFont` -/
  auxMrkFont : QFont
  /-- `QColor auxMrkColor` -/
  auxMrkColor : QColor
  /-- `QColor auxMrkBkgColor` -/
  auxMrkBkgColor : QColor
  /-- `QtPenStyle auxMrkStyle` -/
  auxMrkStyle : QtPenStyle
  /-- `int auxMrkAngle` -/
  auxMrkAngle : CInt
  /-- `int auxMrkBkg` -/
  auxMrkBkg : CInt
  /-- `int auxMrkWidth` -/
  auxMrkWidth : CInt
  /-- `int auxArrowHeadLength` -/
  auxArrowHeadLength : CInt
  /-- `int auxArrowHeadAngle` -/
  auxArrowHeadAngle : CInt
  /-- `bool startArrowOn` -/
  startArrowOn : Bool
  /-- `bool endArrowOn` -/
  endArrowOn : Bool
  /-- `bool auxFilledArrowHead` -/
  auxFilledArrowHead : Bool

/-- A layer without curves or markers and with one (empty) formula per axis; the concrete states
used in the examples are variations of it. -/
def exampleLayer : Graph where
  axesFormulas := ["", "", "", ""]
  axesFormatInfo := ["", "", "", ""]
  axisType := [CInt.ofLong 0, CInt.ofLong 0, CInt.ofLong 0, CInt.ofLong 0]
  selectedMarkerType := MarkerType.None
  c_type := []
  c_keys := []
  d_lines := []
  d_images := []
  d_texts := []
  auxMrkStart := ⟨CInt.ofLong 0, CInt.ofLong 0⟩
  auxMrkEnd := ⟨CInt.ofLong 0, CInt.ofLong 0⟩
  auxMrkFileName := ""
  auxMrkText := ""
  n_curves := CInt.ofLong 0
  selectedMarker := -1
  legendMarkerID := -1
  mrkLinePen := ⟨0⟩
  auxMrkFont := ⟨0⟩
  auxMrkColor := ⟨0⟩
  auxMrkBkgColor := ⟨0⟩
  auxMrkStyle := ⟨0⟩
  auxMrkAngle := CInt.ofLong 0
  auxMrkBkg := CInt.ofLong 0
  auxMrkWidth := CInt.ofLong 1
  auxArrowHeadLength := CInt.ofLong 0
  auxArrowHeadAngle := CInt.ofLong 0
  startArrowOn := false
  endArrowOn := false
  auxFilledArrowHead := false

/-- The example layer with the given curve keys. -/
def layerWithKeys (keys : List CInt) : Graph :=
  { exampleLayer with c_keys := keys }

/-- The example layer with the given curve types. -/
def layerWithTypes (types : List CInt) : Graph :=
  { exampleLayer with c_type := types }

/-! ## Curve keys and indices -/

/-- `long curveKey(int curve){return c_keys[curve];}` -/
def curveKey (g : Graph) (curve : Int) : Except Fault Int :=
  (vecAt g.c_keys curve).map CInt.toLong

/-- `int curveIndex(long key) const {return c_keys.indexOf(key);}`: the `long` argument is
converted to the element type `int` of `c_keys` before the search. -/
def curveIndex (g : Graph) (key : Int) : Int :=
  indexOf g.c_keys (CInt.ofLong key)

/-! ## Curve lookup by title and by index

`plotItemsList()` and `curvePtr(int)` are declared in the header and defined elsewhere.  The inline
members below only use their results, so the list returned by `plotItemsList()` and the function
`curvePtr` of the layer state at hand are parameters.  A null pointer is `none`.  The value
returned by `curve` is the `SciQwtPlotCurve` built from the curve the pointer refers to; that
conversion (`toSci`) is a parameter as well. -/

/-- `int curveIndex(const QString &title) const {return plotItemsList().indexOf(title);}` -/
def curveIndexByTitle (plotItemsList : List String) (title : String) : Int :=
  indexOf plotItemsList title

/-- `SciQwtPlotCurve curve(int index) const`:
`if (auto r=curvePtr(index)) return *r; throw NoSuchObject();` -/
def curve {QwtPlotCurve SciQwtPlotCurve : Type} (curvePtr : Int → Option QwtPlotCurve)
    (toSci : QwtPlotCurve → SciQwtPlotCurve) (index : Int) : Except Fault SciQwtPlotCurve :=
  match curvePtr index with
  | some r => Except.ok (toSci r)
  | none => Except.error Fault.NoSuchObject

/-- `QwtPlotCurve* curvePtr(const QString &title) const {return curvePtr(curveIndex(title));}` -/
def curvePtrByTitle {QwtPlotCurve : Type} (curvePtr : Int → Option QwtPlotCurve)
    (plotItemsList : List String) (title : String) : Option QwtPlotCurve :=
  curvePtr (curveIndexByTitle plotItemsList title)

/-- `SciQwtPlotCurve curve(const QString &title) const {return curve(curveIndex(title));}` -/
def curveByTitle {QwtPlotCurve SciQwtPlotCurve : Type} (curvePtr : Int → Option QwtPlotCurve)
    (toSci : QwtPlotCurve → SciQwtPlotCurve) (plotItemsList : List String) (title : String) :
    Except Fault SciQwtPlotCurve :=
  curve curvePtr toSci (curveIndexByTitle plotItemsList title)

/-! ## Pie plots -/

/-- `bool isPiePlot() const {return (c_type.count() == 1 && c_type[0] == Pie);}`: the right
operand of `&&` is evaluated only when the left one is true. -/
def isPiePlot (g : Graph) : Except Fault Bool :=
  if (g.c_type.length : Int) = 1 then
    (vecAt g.c_type 0).map fun t => decide (CInt.toLong t = CurveType.Pie.code)
  else Except.ok false

/-! ## Axis formulas -/

/-- `QStringList getAxesFormulas(){return axesFormulas;}` -/
def getAxesFormulas (g : Graph) : List String := g.axesFormulas

/-- `void setAxesFormulas(const QStringList& l){axesFormulas = l;}` -/
def setAxesFormulas (g : Graph) (l : List String) : Graph :=
  { g with axesFormulas := l }

/-- `void setAxisFormula(int pos, const QString &f){axesFormulas[pos] = f;}` -/
def setAxisFormula (g : Graph) (pos : Int) (f : String) : Except Fault Graph :=
  (vecSet g.axesFormulas pos f).map fun l => { g with axesFormulas := l }

/-- A call of one of the two members that write `axesFormulas`. -/
inductive FormulaCall where
  | setAxesFormulas (l : List String)
  | setAxisFormula (pos : Int) (f : String)

/-- Effect of one call on the layer. -/
def FormulaCall.run (g : Graph) : FormulaCall → Except Fault Graph
  | .setAxesFormulas l => Except.ok (SciDAVis.setAxesFormulas g l)
  | .setAxisFormula pos f => SciDAVis.setAxisFormula g pos f

/-- Effect of a sequence of calls, executed from left to right; a fault ends the run. -/
def runFormulaCalls (g : Graph) : List FormulaCall → Except Fault Graph
  | [] => Except.ok g
  | c :: cs =>
    match c.run g with
    | Except.ok g1 => runFormulaCalls g1 cs
    | Except.error e => Except.error e

/-- Calls that respect the four axis slots: a replacement list has an entry for each of the four
axes, and a single formula is written at an axis ordinal. -/
def FormulaCall.keepsAxisSlots : FormulaCall → Prop
  | .setAxesFormulas l => 4 ≤ l.length
  | .setAxisFormula pos _ => 0 ≤ pos ∧ pos < 4

/-! ## Axis scale: the `setScale` overloads

The overload with eight arguments is declared in the header and defined elsewhere; it is the
parameter `setScale`.  `D` stands for `double` (the values are only passed on, `0 : D` is the
`double` the literal `0` converts to), `R` for the effect of the full call.  `setScaleN` is the
overload with `N` arguments. -/

/-- `void setScale(axis,start,end,step,majorTicks,minorTicks,type)`:
`setScale(axis,start,end,step,majorTicks,minorTicks,type,false)` -/
def setScale7 {D R : Type} (setScale : Int → D → D → D → Int → Int → Int → Bool → R)
    (axis : Int) (start end_ step : D) (majorTicks minorTicks type : Int) : R :=
  setScale axis start end_ step majorTicks minorTicks type false

/-- `void setScale(axis,start,end,step,majorTicks,minorTicks)`:
`setScale(axis,start,end,step,majorTicks,minorTicks,0)` -/
def setScale6 {D R : Type} (setScale : Int → D → D → D → Int → Int → Int → Bool → R)
    (axis : Int) (start end_ step : D) (majorTicks minorTicks : Int) : R :=
  setScale7 setScale axis start end_ step majorTicks minorTicks 0

/-- `void setScale(axis,start,end,step,majorTicks)`: `setScale(axis,start,end,step,majorTicks,5)` -/
def setScale5 {D R : Type} (setScale : Int → D → D → D → Int → Int → Int → Bool → R)
    (axis : Int) (start end_ step : D) (majorTicks : Int) : R :=
  setScale6 setScale axis start end_ step majorTicks 5

/-- `void setScale(axis,start,end,step)`: `setScale(axis,start,end,step,5)` -/
def setScale4 {D R : Type} (setScale : Int → D → D → D → Int → Int → Int → Bool → R)
    (axis : Int) (start end_ step : D) : R :=
  setScale5 setScale axis start end_ step 5

/-- `void setScale(axis,start,end)`: `setScale(axis,start,end,0)` -/
def setScale3 {D R : Type} [OfNat D 0]
    (setScale : Int → D → D → D → Int → Int → Int → Bool → R)
    (axis : Int) (start end_ : D) : R :=
  setScale4 setScale axis start end_ 0

/-! ## Legend -/

/-- `bool hasLegend(){return legendMarkerID >= 0;}` -/
def hasLegend (g : Graph) : Bool := decide (g.legendMarkerID ≥ 0)

/-! ## The copied marker -/

/-- `void setCopiedMarkerType(Graph::MarkerType type){selectedMarkerType=type;}` -/
def setCopiedMarkerType (g : Graph) (type : MarkerType) : Graph :=
  { g with selectedMarkerType := type }

/-- `MarkerType copiedMarkerType(){return selectedMarkerType;}` -/
def copiedMarkerType (g : Graph) : MarkerType := g.selectedMarkerType

/-- `void setCopiedImageName(const QString& fn){auxMrkFileName=fn;}` -/
def setCopiedImageName (g : Graph) (fn : String) : Graph :=
  { g with auxMrkFileName := fn }

/-! ## Enumerators and their codes -/

/-- The enumerators of `CurveType`, in the order of the declaration. -/
def CurveType.enumerators : List CurveType :=
  [.Line, .Scatter, .LineSymbols, .VerticalBars, .Area, .Pie, .VerticalDropLines,
   .Spline, .HorizontalSteps, .Histogram, .HorizontalBars, .VectXYXY, .ErrorBars,
   .Box, .VectXYAM, .VerticalSteps, .ColorMap, .GrayMap, .ContourMap, .Function]

/-- The enumerators of `AxisType`, in the order of the declaration. -/
def AxisType.enumerators : List AxisType :=
  [.Numeric, .Txt, .Day, .Month, .Time, .Date, .ColHeader, .DateTime]

/-- Conversion of an integer to `AxisType` (`static_cast<AxisType>(n)`): the enumerator whose
value is `n`, when there is one. -/
def AxisType.ofCode (n : Int) : Option AxisType :=
  AxisType.enumerators.find? fun k => decide (k.code = n)

/-! ## Curve insertion: the `insertCurve` overloads

The overloads with a full row range are declared in the header and defined elsewhere; they are
the parameter `insertCurve`.  `T` stands for `Table*`, `R` for the outcome of the full call.
`insertCurveN` is the overload with `N` arguments that takes one column name, `insertCurveXYN`
the one that takes the names of an x and a y column. -/

/-- `bool insertCurve(w,name,style,startRow)`: `insertCurve(w,name,style,startRow,-1)` -/
def insertCurve4 {T R : Type} (insertCurve : T → String → Int → Int → Int → R)
    (w : T) (name : String) (style startRow : Int) : R :=
  insertCurve w name style startRow (-1)

/-- `bool insertCurve(w,name,style)`: `insertCurve(w,name,style,0)` -/
def insertCurve3 {T R : Type} (insertCurve : T → String → Int → Int → Int → R)
    (w : T) (name : String) (style : Int) : R :=
  insertCurve4 insertCurve w name style 0

/-- `bool insertCurve(w,xColName,yColName,style,startRow)`:
`insertCurve(w,xColName,yColName,style,startRow,-1)` -/
def insertCurveXY5 {T R : Type} (insertCurve : T → String → String → Int → Int → Int → R)
    (w : T) (xColName yColName : String) (style startRow : Int) : R :=
  insertCurve w xColName yColName style startRow (-1)

/-- `bool insertCurve(w,xColName,yColName,style)`: `insertCurve(w,xColName,yColName,style,0)` -/
def insertCurveXY4 {T R : Type} (insertCurve : T → String → String → Int → Int → Int → R)
    (w : T) (xColName yColName : String) (style : Int) : R :=
  insertCurveXY5 insertCurve w xColName yColName style 0

/-! ## Function curves: the overloads of the three inserters

The overload of each inserter that takes every argument is declared in the header and defined
elsewhere; it is the first parameter.  `D` stands for `double`: the values are passed on, the
literals `0` and `1` are the `double` values they convert to, and `2*M_PI` is the product in `D`
of the `double` 2 and the constant `M_PI`, a parameter.  A `QString` built from `{}` is the empty
string. -/

/-- `insertFunctionCurve(formula,from,to,points)`: `insertFunctionCurve(formula,from,to,points,{})` -/
def insertFunctionCurve4 {D R : Type} (insertFunctionCurve : String → D → D → Int → String → R)
    (formula : String) (from_ to_ : D) (points : Int) : R :=
  insertFunctionCurve formula from_ to_ points ""

/-- `insertFunctionCurve(formula,from,to)`: `insertFunctionCurve(formula,from,to,100)` -/
def insertFunctionCurve3 {D R : Type} (insertFunctionCurve : String → D → D → Int → String → R)
    (formula : String) (from_ to_ : D) : R :=
  insertFunctionCurve4 insertFunctionCurve formula from_ to_ 100

/-- `insertFunctionCurve(formula,from)`: `insertFunctionCurve(formula,from,1)` -/
def insertFunctionCurve2 {D R : Type} [OfNat D 1]
    (insertFunctionCurve : String → D → D → Int → String → R)
    (formula : String) (from_ : D) : R :=
  insertFunctionCurve3 insertFunctionCurve formula from_ 1

/-- `insertFunctionCurve(formula)`: `insertFunctionCurve(formula,0)` -/
def insertFunctionCurve1 {D R : Type} [OfNat D 0] [OfNat D 1]
    (insertFunctionCurve : String → D → D → Int → String → R)
    (formula : String) : R :=
  insertFunctionCurve2 insertFunctionCurve formula 0

/-- `insertParametricCurve(x,y,from,to,parameter,points)`:
`insertParametricCurve(x,y,from,to,parameter,points,{})` -/
def insertParametricCurve6 {D R : Type}
    (insertParametricCurve : String → String → D → D → String → Int → String → R)
    (x y : String) (from_ to_ : D) (parameter : String) (points : Int) : R :=
  insertParametricCurve x y from_ to_ parameter points ""

/-- `insertParametricCurve(x,y,from,to,parameter)`:
`insertParametricCurve(x,y,from,to,parameter,100)` -/
def insertParametricCurve5 {D R : Type}
    (insertParametricCurve : String → String → D → D → String → Int → String → R)
    (x y : String) (from_ to_ : D) (parameter : String) : R :=
  insertParametricCurve6 insertParametricCurve x y from_ to_ parameter 100

/-- `insertParametricCurve(x,y,from,to)`: `insertParametricCurve(x,y,from,to,"t")` -/
def insertParametricCurve4 {D R : Type}
    (insertParametricCurve : String → String → D → D → String → Int → String → R)
    (x y : String) (from_ to_ : D) : R :=
  insertParametricCurve5 insertParametricCurve x y from_ to_ "t"

/-- `insertParametricCurve(x,y,from)`: `insertParametricCurve(x,y,from,1)` -/
def insertParametricCurve3 {D R : Type} [OfNat D 1]
    (insertParametricCurve : String → String → D → D → String → Int → String → R)
    (x y : String) (from_ : D) : R :=
  insertParametricCurve4 insertParametricCurve x y from_ 1

/-- `insertParametricCurve(x,y)`: `insertParametricCurve(x,y,0)` -/
def insertParametricCurve2 {D R : Type} [OfNat D 0] [OfNat D 1]
    (insertParametricCurve : String → String → D → D → String → Int → String → R)
    (x y : String) : R :=
  insertParametricCurve3 insertParametricCurve x y 0

/-- `insertPolarCurve(radial,angular,from,to,parameter,points)`:
`insertPolarCurve(radial,angular,from,to,parameter,points,{})` -/
def insertPolarCurve6 {D R : Type}
    (insertPolarCurve : String → String → D → D → String → Int → String → R)
    (radial angular : String) (from_ to_ : D) (parameter : String) (points : Int) : R :=
  insertPolarCurve radial angular from_ to_ parameter points ""

/-- `insertPolarCurve(radial,angular,from,to,parameter)`:
`insertPolarCurve(radial,angular,from,to,parameter,100)` -/
def insertPolarCurve5 {D R : Type}
    (insertPolarCurve : String → String → D → D → String → Int → String → R)
    (radial angular : String) (from_ to_ : D) (parameter : String) : R :=
  insertPolarCurve6 insertPolarCurve radial angular from_ to_ parameter 100

/-- `insertPolarCurve(radial,angular,from,to)`: `insertPolarCurve(radial,angular,from,to,"t")` -/
def insertPolarCurve4 {D R : Type}
    (insertPolarCurve : String → String → D → D → String → Int → String → R)
    (radial angular : String) (from_ to_ : D) : R :=
  insertPolarCurve5 insertPolarCurve radial angular from_ to_ "t"

/-- `insertPolarCurve(radial,angular,from)`: `insertPolarCurve(radial,angular,from,2*M_PI)` -/
def insertPolarCurve3 {D R : Type} [OfNat D 2] [Mul D] (M_PI : D)
    (insertPolarCurve : String → String → D → D → String → Int → String → R)
    (radial angular : String) (from_ : D) : R :=
  insertPolarCurve4 insertPolarCurve radial angular from_ (2 * M_PI)

/-- `insertPolarCurve(radial,angular)`: `insertPolarCurve(radial,angular,0)` -/
def insertPolarCurve2 {D R : Type} [OfNat D 0] [OfNat D 2] [Mul D] (M_PI : D)
    (insertPolarCurve : String → String → D → D → String → Int → String → R)
    (radial angular : String) : R :=
  insertPolarCurve3 M_PI insertPolarCurve radial angular 0

/-! ## Error bars: the `addErrorBars` overloads

The overload with ten arguments is declared in the header and defined elsewhere; it is the
parameter `addErrorBars`.  `T` stands for `Table&`, `R` for the outcome of the full call, and
`black` is the `QColor` that `Qt::black` converts to.  `addErrorBarsN` is the overload with `N`
arguments that starts with `yColName`. -/

/-- `addErrorBars(yColName,errTable,errColName,type,width,cap,color,through,minus)`: the full
call with `plus = true`. -/
def addErrorBars9 {T R : Type}
    (addErrorBars : String → T → String → Int → Int → Int → QColor → Bool → Bool → Bool → R)
    (yColName : String) (errTable : T) (errColName : String) (type width cap : Int)
    (color : QColor) (through minus : Bool) : R :=
  addErrorBars yColName errTable errColName type width cap color through minus true

/-- `addErrorBars(yColName,errTable,errColName,type,width,cap,color,through)`:
`addErrorBars(yColName,errTable,errColName,type,width,cap,color,through,true)` -/
def addErrorBars8 {T R : Type}
    (addErrorBars : String → T → String → Int → Int → Int → QColor → Bool → Bool → Bool → R)
    (yColName : String) (errTable : T) (errColName : String) (type width cap : Int)
    (color : QColor) (through : Bool) : R :=
  addErrorBars9 addErrorBars yColName errTable errColName type width cap color through true

/-- `addErrorBars(yColName,errTable,errColName,type,width,cap,color)`:
`addErrorBars(yColName,errTable,errColName,type,width,cap,color,true)` -/
def addErrorBars7 {T R : Type}
    (addErrorBars : String → T → String → Int → Int → Int → QColor → Bool → Bool → Bool → R)
    (yColName : String) (errTable : T) (errColName : String) (type width cap : Int)
    (color : QColor) : R :=
  addErrorBars8 addErrorBars yColName errTable errColName type width cap color true

/-- `addErrorBars(yColName,errTable,errColName,type,width,cap)`:
`addErrorBars(yColName,errTable,errColName,type,width,cap,Qt::black)` -/
def addErrorBars6 {T R : Type} (black : QColor)
    (addErrorBars : String → T → String → Int → Int → Int → QColor → Bool → Bool → Bool → R)
    (yColName : String) (errTable : T) (errColName : String) (type width cap : Int) : R :=
  addErrorBars7 addErrorBars yColName errTable errColName type width cap black

/-- `addErrorBars(yColName,errTable,errColName,type,width)`:
`addErrorBars(yColName,errTable,errColName,type,width,8)` -/
def addErrorBars5 {T R : Type} (black : QColor)
    (addErrorBars : String → T → String → Int → Int → Int → QColor → Bool → Bool → Bool → R)
    (yColName : String) (errTable : T) (errColName : String) (type width : Int) : R :=
  addErrorBars6 black addErrorBars yColName errTable errColName type width 8

/-- `addErrorBars(yColName,errTable,errColName,type)`:
`addErrorBars(yColName,errTable,errColName,type,1)` -/
def addErrorBars4 {T R : Type} (black : QColor)
    (addErrorBars : String → T → String → Int → Int → Int → QColor → Bool → Bool → Bool → R)
    (yColName : String) (errTable : T) (errColName : String) (type : Int) : R :=
  addErrorBars5 black addErrorBars yColName errTable errColName type 1

/-- `addErrorBars(yColName,errTable,errColName)`: `addErrorBars(yColName,errTable,errColName,1)` -/
def addErrorBars3 {T R : Type} (black : QColor)
    (addErrorBars : String → T → String → Int → Int → Int → QColor → Bool → Bool → Bool → R)
    (yColName : String) (errTable : T) (errColName : String) : R :=
  addErrorBars4 black addErrorBars yColName errTable errColName 1

/-- A call `addErrorBars(xColName,yColName,errTable,errColName)` of the overload declared with
the default arguments `type=1, width=1, cap=8, color=Qt::black, through=true, minus=true,
plus=true`; the overload itself, defined elsewhere, is the parameter `addErrorBars`. -/
def addErrorBarsXY4 {T R : Type} (black : QColor)
    (addErrorBars :
      String → String → T → String → Int → Int → Int → QColor → Bool → Bool → Bool → R)
    (xColName yColName : String) (errTable : T) (errColName : String) : R :=
  addErrorBars xColName yColName errTable errColName 1 1 8 black true true true

/-! ## Curve layout -/

/-- Values of the C++ type `unsigned int`. -/
abbrev CUInt : Type := { x : Int // 0 ≤ x ∧ x < 4294967296 }

/-- The structure `CurveLayout`; `lCapStyle=0` and `lJoinStyle=0x40` are its two default member
initialisers. -/
structure CurveLayout where
  lCol : CUInt
  lWidth : CInt
  lStyle : CInt
  lCapStyle : CInt := CInt.ofLong 0
  lJoinStyle : CInt := CInt.ofLong 0x40
  lCustomDash : String
  filledArea : CInt
  aCol : CUInt
  aStyle : CInt
  symCol : CUInt
  symbolFill : Bool
  fillCol : CUInt
  penWidth : CInt
  sSize : CInt
  sType : CInt
  connectType : CInt

/-- The object defined by `CurveLayout cl;`.  The members with a default member initialiser get
its value and the `QString` is empty; the values of the other members are indeterminate, here
those that `junk` happens to hold. -/
def CurveLayout.defaultInit (junk : CurveLayout) : CurveLayout :=
  { lCol := junk.lCol
    lWidth := junk.lWidth
    lStyle := junk.lStyle
    lCustomDash := ""
    filledArea := junk.filledArea
    aCol := junk.aCol
    aStyle := junk.aStyle
    symCol := junk.symCol
    symbolFill := junk.symbolFill
    fillCol := junk.fillCol
    penWidth := junk.penWidth
    sSize := junk.sSize
    sType := junk.sType
    connectType := junk.connectType }

/-- An assignment `cl.member = value` to a member other than `lCapStyle` and `lJoinStyle`. -/
inductive LayoutWrite where
  | lCol (v : CUInt)
  | lWidth (v : CInt)
  | lStyle (v : CInt)
  | lCustomDash (v : String)
  | filledArea (v : CInt)
  | aCol (v : CUInt)
  | aStyle (v : CInt)
  | symCol (v : CUInt)
  | symbolFill (v : Bool)
  | fillCol (v : CUInt)
  | penWidth (v : CInt)
  | sSize (v : CInt)
  | sType (v : CInt)
  | connectType (v : CInt)

/-- Effect of one assignment on a layout. -/
def CurveLayout.write (cl : CurveLayout) : LayoutWrite → CurveLayout
  | .lCol v => { cl with lCol := v }
  | .lWidth v => { cl with lWidth := v }
  | .lStyle v => { cl with lStyle := v }
  | .lCustomDash v => { cl with lCustomDash := v }
  | .filledArea v => { cl with filledArea := v }
  | .aCol v => { cl with aCol := v }
  | .aStyle v => { cl with aStyle := v }
  | .symCol v => { cl with symCol := v }
  | .symbolFill v => { cl with symbolFill := v }
  | .fillCol v => { cl with fillCol := v }
  | .penWidth v => { cl with penWidth := v }
  | .sSize v => { cl with sSize := v }
  | .sType v => { cl with sType := v }
  | .connectType v => { cl with connectType := v }

/-- Effect of a sequence of assignments, executed from left to right. -/
def CurveLayout.writeAll (cl : CurveLayout) : List LayoutWrite → CurveLayout
  | [] => cl
  | w :: ws => (cl.write w).writeAll ws

/-! ## Facts about the container primitives -/

theorem wrapInt_of_isInt (x : Int) (h : isInt x) : wrapInt x = x := by
  unfold isInt at h
  unfold wrapInt
  omega

theorem CInt.ofLong_toLong (x : CInt) : CInt.ofLong (CInt.toLong x) = x := by
  apply Subtype.ext
  exact wrapInt_of_isInt x.val x.property

theorem vecAt_natCast {α : Type} (v : List α) (k : Nat) (x : α) (h : v[k]? = some x) :
    vecAt v (k : Int) = Except.ok x := by
  unfold vecAt
  have hk : ¬ ((k : Int) < 0) := by omega
  simp [hk, h]

theorem vecAt_eq_ok {α : Type} (v : List α) (i : Int) (x : α) (h : vecAt v i = Except.ok x) :
    0 ≤ i ∧ i < v.length ∧ v[i.toNat]? = some x := by
  unfold vecAt at h
  by_cases hi : i < 0
  · simp [hi] at h
  · simp only [hi, if_false] at h
    cases hx : v[i.toNat]? with
    | none => simp [hx] at h
    | some y =>
      simp only [hx, Except.ok.injEq] at h
      subst h
      have hlt : i.toNat < v.length := (List.getElem?_eq_some_iff.mp hx).1
      refine ⟨by omega, by omega, rfl⟩

theorem vecAt_out_of_range {α : Type} (v : List α) (i : Int) (h : i < 0 ∨ (v.length : Int) ≤ i) :
    vecAt v i = Except.error Fault.indexOutOfRange := by
  unfold vecAt
  by_cases hi : i < 0
  · simp [hi]
  · have hlen : v.length ≤ i.toNat := by omega
    simp [hi, List.getElem?_eq_none hlen]

theorem indexOfLoop_not_mem {α : Type} [DecidableEq α] (t : α) (xs : List α) (n : Int)
    (h : t ∉ xs) : indexOfLoop t xs n = -1 := by
  induction xs generalizing n with
  | nil => rfl
  | cons x xs ih =>
    have hx : x ≠ t := fun e => h (by simp [e])
    have ht : t ∉ xs := fun e => h (by simp [e])
    simp [indexOfLoop, hx, ih (n + 1) ht]

theorem indexOfLoop_mem {α : Type} [DecidableEq α] (t : α) (xs : List α) (n : Int)
    (h : t ∈ xs) :
    ∃ k : Nat, k < xs.length ∧ indexOfLoop t xs n = n + k ∧ xs[k]? = some t ∧
      ∀ j : Nat, j < k → xs[j]? ≠ some t := by
  induction xs generalizing n with
  | nil => simp at h
  | cons x xs ih =>
    by_cases hx : x = t
    · refine ⟨0, by simp, by simp [indexOfLoop, hx], by simp [hx], ?_⟩
      intro j hj
      omega
    · have ht : t ∈ xs := by
        rcases List.mem_cons.mp h with e | e
        · exact absurd e.symm hx
        · exact e
      obtain ⟨k, hk, hres, hget, hmin⟩ := ih (n + 1) ht
      refine ⟨k + 1, by simp [hk], ?_, by simpa using hget, ?_⟩
      · simp only [indexOfLoop, hx, if_false, hres]
        push_cast
        omega
      · intro j hj
        cases j with
        | zero => simpa using hx
        | succ j => simpa using hmin j (by omega)

theorem indexOfLoop_nodup {α : Type} [DecidableEq α] (t : α) (xs : List α) (n : Int) (k : Nat)
    (hd : xs.Nodup) (hk : xs[k]? = some t) : indexOfLoop t xs n = n + k := by
  have hmem : t ∈ xs := List.getElem?_mem hk
  obtain ⟨m, hm, hres, hget, _⟩ := indexOfLoop_mem t xs n hmem
  have hklt : k < xs.length := (List.getElem?_eq_some_iff.mp hk).1
  have hkm : k = m := by
    have h1 : xs[k] = t := (List.getElem?_eq_some_iff.mp hk).2
    have h2 : xs[m] = t := (List.getElem?_eq_some_iff.mp hget).2
    exact (List.Nodup.getElem_inj_iff hd).mp (h1.trans h2.symm)
  rw [hres, hkm]

/-! ## Curve keys and indices: results -/

/-- C1: in a layer whose curve keys are pairwise distinct, for every index `i` with
`0 <= i < number of keys` the call `curveKey(i)` returns a key and `curveIndex` of that key is
`i` again. -/
theorem curveIndex_curveKey (g : Graph) (hd : g.c_keys.Nodup) (i : Int) (h0 : 0 ≤ i)
    (h1 : i < g.c_keys.length) :
    ∃ key, curveKey g i = Except.ok key ∧ curveIndex g key = i := by
  obtain ⟨k, rfl⟩ := Int.eq_ofNat_of_zero_le h0
  have hk : k < g.c_keys.length := by exact_mod_cast h1
  have hget : g.c_keys[k]? = some g.c_keys[k] := List.getElem?_eq_getElem hk
  refine ⟨CInt.toLong g.c_keys[k], ?_, ?_⟩
  · unfold curveKey
    rw [vecAt_natCast g.c_keys k _ hget]
    rfl
  · unfold curveIndex indexOf
    rw [CInt.ofLong_toLong, indexOfLoop_nodup _ _ 0 k hd hget]
    simp

/-- Witness for C1: a layer with the keys 7, 3, 12 and the index 1. -/
theorem curveIndex_curveKey_witness :
    ∃ key, curveKey (layerWithKeys [CInt.ofLong 7, CInt.ofLong 3, CInt.ofLong 12]) 1 = Except.ok key ∧
      curveIndex (layerWithKeys [CInt.ofLong 7, CInt.ofLong 3, CInt.ofLong 12]) key = 1 :=
  curveIndex_curveKey
    (layerWithKeys [CInt.ofLong 7, CInt.ofLong 3, CInt.ofLong 12])
    (by decide) 1 (by decide) (by decide)

/-- C2 as stated fails: the layer holds the single key 5 and the `long` key 4294967301
(2^32 + 5) is not stored, yet `curveIndex` reports position 0 instead of -1, and the key at
position 0 differs from the one asked for. -/
theorem curveIndex_wide_key_found :
    isLong 4294967301 ∧
      (∀ k ∈ (layerWithKeys [CInt.ofLong 5]).c_keys,
        CInt.toLong k ≠ 4294967301) ∧
      curveIndex (layerWithKeys [CInt.ofLong 5]) 4294967301 = 0 ∧
      curveKey (layerWithKeys [CInt.ofLong 5]) 0 = Except.ok 5 := by
  decide

/-- C2, amended: `curveIndex(key)` is total.  With `key` converted to `int` (the conversion keeps
every key of the `int` range) it returns -1 exactly when the converted key is not among the
stored keys, and otherwise the smallest index, within `0 <= i < count`, at which `c_keys` holds
the converted key. -/
theorem curveIndex_spec (g : Graph) (key : Int) :
    (isInt key → CInt.toLong (CInt.ofLong key) = key) ∧
      (curveIndex g key = -1 ↔ CInt.ofLong key ∉ g.c_keys) ∧
      (CInt.ofLong key ∈ g.c_keys →
        0 ≤ curveIndex g key ∧ curveIndex g key < g.c_keys.length ∧
          vecAt g.c_keys (curveIndex g key) = Except.ok (CInt.ofLong key) ∧
          ∀ j : Int, 0 ≤ j → j < curveIndex g key →
            vecAt g.c_keys j ≠ Except.ok (CInt.ofLong key)) := by
  have found : CInt.ofLong key ∈ g.c_keys →
      0 ≤ curveIndex g key ∧ curveIndex g key < g.c_keys.length ∧
        vecAt g.c_keys (curveIndex g key) = Except.ok (CInt.ofLong key) ∧
        ∀ j : Int, 0 ≤ j → j < curveIndex g key →
          vecAt g.c_keys j ≠ Except.ok (CInt.ofLong key) := by
    intro hmem
    obtain ⟨k, hk, hres, hget, hmin⟩ := indexOfLoop_mem (CInt.ofLong key) g.c_keys 0 hmem
    have hidx : curveIndex g key = (k : Int) := by
      unfold curveIndex indexOf
      rw [hres]
      simp
    rw [hidx]
    refine ⟨by omega, by exact_mod_cast hk, vecAt_natCast _ _ _ hget, ?_⟩
    intro j hj0 hjk hj
    obtain ⟨_, _, hjget⟩ := vecAt_eq_ok _ _ _ hj
    exact hmin j.toNat (by omega) hjget
  refine ⟨?_, ⟨?_, ?_⟩, found⟩
  · intro h
    exact wrapInt_of_isInt key h
  · intro hres hmem
    have := (found hmem).1
    omega
  · intro hmem
    exact indexOfLoop_not_mem _ _ 0 hmem

/-- C3, the code at an index outside `0 <= i < count`: in a layer with the single key 7 the
calls `curveKey(1)` and `curveKey(-1)` index `c_keys` out of range instead of returning a
sentinel. -/
theorem curveKey_out_of_range_faults :
    curveKey (layerWithKeys [CInt.ofLong 7]) 1
        = Except.error Fault.indexOutOfRange ∧
      curveKey (layerWithKeys [CInt.ofLong 7]) (-1)
        = Except.error Fault.indexOutOfRange := by
  decide

/-! ## Axis formulas: results -/

theorem vecSet_in_range {α : Type} (v : List α) (i : Int) (x : α) (h0 : 0 ≤ i)
    (h1 : i < v.length) : vecSet v i x = Except.ok (v.set i.toNat x) := by
  unfold vecSet
  have hi : ¬ (i < 0) := by omega
  have hlt : i.toNat < v.length := by omega
  simp [hi, hlt]

theorem FormulaCall.run_keepsAxisSlots (g : Graph) (c : FormulaCall)
    (hg : 4 ≤ (getAxesFormulas g).length) (hc : c.keepsAxisSlots) :
    ∃ g1, c.run g = Except.ok g1 ∧ 4 ≤ (getAxesFormulas g1).length := by
  cases c with
  | setAxesFormulas l => exact ⟨SciDAVis.setAxesFormulas g l, rfl, hc⟩
  | setAxisFormula pos f =>
    obtain ⟨h0, h1⟩ := hc
    unfold getAxesFormulas at hg
    have hset := vecSet_in_range g.axesFormulas pos f h0 (by omega)
    refine ⟨{ g with axesFormulas := g.axesFormulas.set pos.toNat f }, ?_, ?_⟩
    · simp only [FormulaCall.run, SciDAVis.setAxisFormula, hset]
      rfl
    · simpa [getAxesFormulas] using hg

/-- C4 as stated fails: from the example layer, which has four formulas, the single call
`setAxesFormulas` with the empty list leaves `getAxesFormulas()` without any entry, and ordinal 0
is then out of range.  (A call `setAxisFormula(4, f)` on the four formulas does not yield a list
at all: it indexes `axesFormulas` out of range.) -/
theorem setAxesFormulas_drops_axis_slots :
    (getAxesFormulas exampleLayer).length = 4 ∧
      (runFormulaCalls exampleLayer [FormulaCall.setAxesFormulas []]).map
          (fun g => (getAxesFormulas g).length) = Except.ok 0 ∧
      (runFormulaCalls exampleLayer [FormulaCall.setAxesFormulas []]).bind
          (fun g => vecAt (getAxesFormulas g) 0) = Except.error Fault.indexOutOfRange ∧
      (runFormulaCalls exampleLayer [FormulaCall.setAxisFormula 4 "x"]).map
          (fun g => (getAxesFormulas g).length) = Except.error Fault.indexOutOfRange := by
  decide

/-- C4, amended: starting from a layer with four axis formulas, every sequence of calls in which
each `setAxesFormulas(l)` passes a list with an entry for each of the four axes and each
`setAxisFormula(pos, f)` writes at an axis ordinal `0 <= pos < 4` runs to its end, and afterwards
`getAxesFormulas()` has an entry at each of the ordinals 0..3. -/
theorem axesFormulas_indexable (g : Graph) (calls : List FormulaCall)
    (h4 : (getAxesFormulas g).length = 4) (hcalls : ∀ c ∈ calls, c.keepsAxisSlots) :
    ∃ g1, runFormulaCalls g calls = Except.ok g1 ∧
      ∀ axis : Int, 0 ≤ axis → axis < 4 →
        ∃ f, vecAt (getAxesFormulas g1) axis = Except.ok f := by
  have key : ∀ (cs : List FormulaCall) (g0 : Graph), 4 ≤ (getAxesFormulas g0).length →
      (∀ c ∈ cs, c.keepsAxisSlots) →
      ∃ g1, runFormulaCalls g0 cs = Except.ok g1 ∧ 4 ≤ (getAxesFormulas g1).length := by
    intro cs
    induction cs with
    | nil => intro g0 hg _; exact ⟨g0, rfl, hg⟩
    | cons c cs ih =>
      intro g0 hg hcs
      obtain ⟨g1, hrun, hg1⟩ :=
        FormulaCall.run_keepsAxisSlots g0 c hg (hcs c (List.mem_cons_self c cs))
      obtain ⟨g2, hrest, hg2⟩ := ih g1 hg1 (fun d hd => hcs d (List.mem_cons_of_mem c hd))
      exact ⟨g2, by simp only [runFormulaCalls, hrun, hrest], hg2⟩
  obtain ⟨g1, hrun, hlen⟩ := key calls g (by omega) hcalls
  refine ⟨g1, hrun, ?_⟩
  intro axis h0 h1
  have hlt : axis.toNat < (getAxesFormulas g1).length := by omega
  refine ⟨(getAxesFormulas g1)[axis.toNat], ?_⟩
  have hcast : ((axis.toNat : Nat) : Int) = axis := Int.toNat_of_nonneg h0
  have := vecAt_natCast (getAxesFormulas g1) axis.toNat _ (List.getElem?_eq_getElem hlt)
  rwa [hcast] at this

/-- Witness for the amended C4: one formula is written at ordinal 2, then the list is replaced by
one with five entries. -/
theorem axesFormulas_indexable_witness :
    ∃ g1, runFormulaCalls exampleLayer
        [FormulaCall.setAxisFormula 2 "x^2",
          FormulaCall.setAxesFormulas ["a", "b", "c", "d", "e"]] = Except.ok g1 ∧
      ∀ axis : Int, 0 ≤ axis → axis < 4 →
        ∃ f, vecAt (getAxesFormulas g1) axis = Except.ok f :=
  axesFormulas_indexable exampleLayer
    [FormulaCall.setAxisFormula 2 "x^2", FormulaCall.setAxesFormulas ["a", "b", "c", "d", "e"]]
    (by decide)
    (by
      intro c hc
      simp only [List.mem_cons, List.mem_singleton, List.not_mem_nil, or_false] at hc
      rcases hc with rfl | rfl
      · exact ⟨by decide, by decide⟩
      · show 4 ≤ 5
        decide)

/-! ## Pie plots: results -/

/-- C5: `isPiePlot()` always returns a value (the element `c_type[0]` is read only when the
list has exactly one entry); the value is `true` exactly when `c_type` has exactly one entry and
that entry is `Pie`, so it is `false` for a layer without curve types and for every layer with
two or more of them. -/
theorem isPiePlot_spec (g : Graph) :
    (isPiePlot g = Except.ok true ∨ isPiePlot g = Except.ok false) ∧
      (isPiePlot g = Except.ok true ↔
        ∃ t, g.c_type = [t] ∧ CInt.toLong t = CurveType.Pie.code) ∧
      (g.c_type = [] → isPiePlot g = Except.ok false) ∧
      (2 ≤ g.c_type.length → isPiePlot g = Except.ok false) := by
  unfold isPiePlot
  cases hc : g.c_type with
  | nil => simp
  | cons t ts =>
    cases ts with
    | nil =>
      by_cases ht : CInt.toLong t = CurveType.Pie.code
      · simp [vecAt, Except.map, ht]
      · simp [vecAt, Except.map, ht]
    | cons u us =>
      have hlen : ¬ (((t :: u :: us).length : Int) = 1) := by
        simp only [List.length_cons]
        push_cast
        omega
      rw [if_neg hlen]
      simp

/-! ## Curve lookup by title and by index: results -/

/-- C7: `curveIndex(title)` is -1 when no entry of `plotItemsList()` equals `title`, and
otherwise the position of the first entry equal to it; when the titles are pairwise distinct,
that position is the only index at which the list holds `title`. -/
theorem curveIndexByTitle_spec (plotItemsList : List String) (title : String) :
    (title ∉ plotItemsList → curveIndexByTitle plotItemsList title = -1) ∧
      (title ∈ plotItemsList →
        0 ≤ curveIndexByTitle plotItemsList title ∧
          curveIndexByTitle plotItemsList title < plotItemsList.length ∧
          vecAt plotItemsList (curveIndexByTitle plotItemsList title) = Except.ok title ∧
          ∀ j : Int, 0 ≤ j → j < curveIndexByTitle plotItemsList title →
            vecAt plotItemsList j ≠ Except.ok title) ∧
      (plotItemsList.Nodup → 0 ≤ curveIndexByTitle plotItemsList title →
        vecAt plotItemsList (curveIndexByTitle plotItemsList title) = Except.ok title ∧
          ∀ i : Int, vecAt plotItemsList i = Except.ok title →
            i = curveIndexByTitle plotItemsList title) := by
  have found : title ∈ plotItemsList →
      ∃ k : Nat, curveIndexByTitle plotItemsList title = (k : Int) ∧
        k < plotItemsList.length ∧ plotItemsList[k]? = some title ∧
        ∀ j : Nat, j < k → plotItemsList[j]? ≠ some title := by
    intro hmem
    obtain ⟨k, hk, hres, hget, hmin⟩ := indexOfLoop_mem title plotItemsList 0 hmem
    refine ⟨k, ?_, hk, hget, hmin⟩
    unfold curveIndexByTitle indexOf
    rw [hres]
    simp
  refine ⟨?_, ?_, ?_⟩
  · intro hmem
    exact indexOfLoop_not_mem _ _ 0 hmem
  · intro hmem
    obtain ⟨k, hidx, hk, hget, hmin⟩ := found hmem
    rw [hidx]
    refine ⟨by omega, by exact_mod_cast hk, vecAt_natCast _ _ _ hget, ?_⟩
    intro j hj0 hjk hj
    obtain ⟨_, _, hjget⟩ := vecAt_eq_ok _ _ _ hj
    exact hmin j.toNat (by omega) hjget
  · intro hd hnonneg
    have hmem : title ∈ plotItemsList := by
      by_contra hnot
      have : curveIndexByTitle plotItemsList title = -1 := indexOfLoop_not_mem _ _ 0 hnot
      omega
    obtain ⟨k, hidx, hk, hget, _⟩ := found hmem
    rw [hidx]
    refine ⟨vecAt_natCast _ _ _ hget, ?_⟩
    intro i hi
    obtain ⟨hi0, _, higet⟩ := vecAt_eq_ok _ _ _ hi
    have hiloop := indexOfLoop_nodup title plotItemsList 0 i.toNat hd higet
    have hkloop := indexOfLoop_nodup title plotItemsList 0 k hd hget
    have : (i.toNat : Int) = (k : Int) := by omega
    omega

/-- C8: `curve(index)` throws `NoSuchObject` exactly when `curvePtr(index)` is null and otherwise
returns the curve `curvePtr(index)` points to; `curve(title)` has the outcome of
`curve(curveIndex(title))`, which for a title matching no plot item is `curve(-1)`. -/
theorem curve_spec {QwtPlotCurve SciQwtPlotCurve : Type}
    (curvePtr : Int → Option QwtPlotCurve) (toSci : QwtPlotCurve → SciQwtPlotCurve)
    (plotItemsList : List String) (index : Int) (title : String) :
    (curve curvePtr toSci index = Except.error Fault.NoSuchObject ↔ curvePtr index = none) ∧
      (∀ r, curvePtr index = some r → curve curvePtr toSci index = Except.ok (toSci r)) ∧
      curveByTitle curvePtr toSci plotItemsList title
        = curve curvePtr toSci (curveIndexByTitle plotItemsList title) ∧
      (title ∉ plotItemsList →
        curveIndexByTitle plotItemsList title = -1 ∧
          curveByTitle curvePtr toSci plotItemsList title = curve curvePtr toSci (-1)) := by
  refine ⟨?_, ?_, rfl, ?_⟩
  · unfold curve
    cases curvePtr index <;> simp
  · intro r hr
    unfold curve
    rw [hr]
  · intro hmem
    have hidx : curveIndexByTitle plotItemsList title = -1 := indexOfLoop_not_mem _ _ 0 hmem
    refine ⟨hidx, ?_⟩
    unfold curveByTitle
    rw [hidx]

/-! ## Axis scale: results -/

/-- C9: `setScale(axis, start, end)` is the full call with `step = 0`, `majorTicks = 5`,
`minorTicks = 5`, `type = 0` (the code of `Numeric`) and `inverted = false`, and every
intermediate overload fills exactly its missing trailing arguments with these values. -/
theorem setScale_defaults {D R : Type} [OfNat D 0]
    (setScale : Int → D → D → D → Int → Int → Int → Bool → R)
    (axis : Int) (start end_ step : D) (majorTicks minorTicks type : Int) :
    setScale3 setScale axis start end_
        = setScale axis start end_ 0 5 5 AxisType.Numeric.code false ∧
      setScale4 setScale axis start end_ step
        = setScale axis start end_ step 5 5 AxisType.Numeric.code false ∧
      setScale5 setScale axis start end_ step majorTicks
        = setScale axis start end_ step majorTicks 5 AxisType.Numeric.code false ∧
      setScale6 setScale axis start end_ step majorTicks minorTicks
        = setScale axis start end_ step majorTicks minorTicks AxisType.Numeric.code false ∧
      setScale7 setScale axis start end_ step majorTicks minorTicks type
        = setScale axis start end_ step majorTicks minorTicks type false ∧
      AxisType.Numeric.code = 0 :=
  ⟨rfl, rfl, rfl, rfl, rfl, rfl⟩

/-! ## Legend: results -/

/-- C10: `hasLegend()` is true exactly when `legendMarkerID >= 0`, so every negative value
means that there is no legend; the legend being identified by that one key, two keys of active
legends of a layer are equal. -/
theorem hasLegend_spec (g : Graph) :
    (hasLegend g = true ↔ 0 ≤ g.legendMarkerID) ∧
      (g.legendMarkerID < 0 → hasLegend g = false) ∧
      (∀ k1 k2 : Int, (hasLegend g = true ∧ g.legendMarkerID = k1) →
        (hasLegend g = true ∧ g.legendMarkerID = k2) → k1 = k2) := by
  unfold hasLegend
  refine ⟨by simp, ?_, ?_⟩
  · intro h
    simp only [ge_iff_le, decide_eq_false_iff_not]
    omega
  · rintro k1 k2 ⟨_, h1⟩ ⟨_, h2⟩
    rw [← h1, ← h2]

/-! ## The copied marker: results -/

/-- C11: after `setCopiedMarkerType(t)` the call `copiedMarkerType()` returns `t` and the layer
differs from the one before at most in `selectedMarkerType` (copied text, pen, end points, image
name and selected marker key are the old ones); `setCopiedImageName(fn)` stores `fn` and changes
at most the copied image name. -/
theorem setCopiedMarkerType_frame (g : Graph) (t : MarkerType) (fn : String) :
    copiedMarkerType (setCopiedMarkerType g t) = t ∧
      { setCopiedMarkerType g t with selectedMarkerType := g.selectedMarkerType } = g ∧
      (setCopiedMarkerType g t).auxMrkText = g.auxMrkText ∧
      (setCopiedMarkerType g t).mrkLinePen = g.mrkLinePen ∧
      (setCopiedMarkerType g t).auxMrkWidth = g.auxMrkWidth ∧
      (setCopiedMarkerType g t).auxMrkStyle = g.auxMrkStyle ∧
      (setCopiedMarkerType g t).auxMrkColor = g.auxMrkColor ∧
      (setCopiedMarkerType g t).auxMrkStart = g.auxMrkStart ∧
      (setCopiedMarkerType g t).auxMrkEnd = g.auxMrkEnd ∧
      (setCopiedMarkerType g t).auxMrkFileName = g.auxMrkFileName ∧
      (setCopiedMarkerType g t).selectedMarker = g.selectedMarker ∧
      (setCopiedImageName g fn).auxMrkFileName = fn ∧
      { setCopiedImageName g fn with auxMrkFileName := g.auxMrkFileName } = g ∧
      copiedMarkerType (setCopiedImageName g fn) = copiedMarkerType g :=
  ⟨rfl, rfl, rfl, rfl, rfl, rfl, rfl, rfl, rfl, rfl, rfl, rfl, rfl, rfl⟩

/-! ## Axis formulas: a single write -/

/-- C12: on a formula list of length `n` and for `0 <= pos < n`, `setAxisFormula(pos, f)`
completes and `getAxesFormulas()` then has the same length, holds `f` at `pos` and is unchanged
at every other position; after `setAxesFormulas(l)`, `getAxesFormulas()` returns `l`. -/
theorem setAxisFormula_spec (g : Graph) (pos : Int) (f : String) (h0 : 0 ≤ pos)
    (h1 : pos < (getAxesFormulas g).length) :
    (∃ g1, setAxisFormula g pos f = Except.ok g1 ∧
        (getAxesFormulas g1).length = (getAxesFormulas g).length ∧
        vecAt (getAxesFormulas g1) pos = Except.ok f ∧
        ∀ j : Int, j ≠ pos → vecAt (getAxesFormulas g1) j = vecAt (getAxesFormulas g) j) ∧
      ∀ l : List String, getAxesFormulas (setAxesFormulas g l) = l := by
  refine ⟨?_, fun l => rfl⟩
  unfold getAxesFormulas at h1
  have hset := vecSet_in_range g.axesFormulas pos f h0 h1
  have hlt : pos.toNat < g.axesFormulas.length := by omega
  have hcast : ((pos.toNat : Nat) : Int) = pos := Int.toNat_of_nonneg h0
  refine ⟨{ g with axesFormulas := g.axesFormulas.set pos.toNat f }, ?_, ?_, ?_, ?_⟩
  · simp only [setAxisFormula, hset]
    rfl
  · simp [getAxesFormulas]
  · have hget : (g.axesFormulas.set pos.toNat f)[pos.toNat]? = some f :=
      List.getElem?_set_self hlt
    have := vecAt_natCast _ _ _ hget
    rw [hcast] at this
    simpa [getAxesFormulas] using this
  · intro j hj
    simp only [getAxesFormulas, vecAt]
    by_cases hneg : j < 0
    · simp [hneg]
    · have hne : pos.toNat ≠ j.toNat := by omega
      simp only [hneg, if_false]
      rw [List.getElem?_set_ne hne]

/-- Witness for C12: the formula at ordinal 2 of the four formulas of the example layer. -/
theorem setAxisFormula_spec_witness :
    (∃ g1, setAxisFormula exampleLayer 2 "x^2" = Except.ok g1 ∧
        (getAxesFormulas g1).length = (getAxesFormulas exampleLayer).length ∧
        vecAt (getAxesFormulas g1) 2 = Except.ok "x^2" ∧
        ∀ j : Int, j ≠ 2 →
          vecAt (getAxesFormulas g1) j = vecAt (getAxesFormulas exampleLayer) j) ∧
      ∀ l : List String, getAxesFormulas (setAxesFormulas exampleLayer l) = l :=
  setAxisFormula_spec exampleLayer 2 "x^2" (by decide) (by decide)

/-! ## Enumerators and their codes: results -/

theorem CurveType.curveCode_injective : Function.Injective CurveType.code := by
  intro a b h
  cases a <;> cases b <;> first | rfl | (simp [CurveType.code] at h)

theorem AxisType.axisCode_injective : Function.Injective AxisType.code := by
  intro a b h
  cases a <;> cases b <;> first | rfl | (simp [AxisType.code] at h)

/-- C13: `CurveType` has exactly 20 enumerators, their codes are 0..19 in the order of the
declaration (`Line = 0`, ..., `Pie = 5`, ..., `ErrorBars = 12`, `Box = 13`, ...,
`ContourMap = 18`, `Function = 19`), the code is injective, and every integer of 0..19 is the
code of exactly one enumerator. -/
theorem CurveType_codes :
    (∀ c : CurveType, c ∈ CurveType.enumerators) ∧
      CurveType.enumerators.Nodup ∧
      CurveType.enumerators.length = 20 ∧
      CurveType.enumerators.map CurveType.code
        = [0, 1, 2, 3, 4, 5, 6, 7, 8, 9, 10, 11, 12, 13, 14, 15, 16, 17, 18, 19] ∧
      Function.Injective CurveType.code ∧
      (∀ n : Int, 0 ≤ n → n ≤ 19 → ∃! c : CurveType, c.code = n) ∧
      (∀ c : CurveType, 0 ≤ c.code ∧ c.code ≤ 19) := by
  have hmap : CurveType.enumerators.map CurveType.code
      = [0, 1, 2, 3, 4, 5, 6, 7, 8, 9, 10, 11, 12, 13, 14, 15, 16, 17, 18, 19] := rfl
  refine ⟨?_, by decide, rfl, hmap, CurveType.curveCode_injective, ?_, ?_⟩
  · intro c
    cases c <;> decide
  · intro n h0 h19
    have hn : n ∈ CurveType.enumerators.map CurveType.code := by
      rw [hmap]
      interval_cases n <;> decide
    obtain ⟨c, _, hc⟩ := List.mem_map.mp hn
    exact ⟨c, hc, fun d hd => CurveType.curveCode_injective (hd.trans hc.symm)⟩
  · intro c
    cases c <;> decide

/-- C14: `AxisType` has exactly eight enumerators with the pairwise distinct codes 0, 1, 2, 3, 4,
5, 6 and 22; no integer of 7..21 is the code of an enumerator, and converting the code of an
enumerator back gives that enumerator. -/
theorem AxisType_codes :
    (∀ k : AxisType, k ∈ AxisType.enumerators) ∧
      AxisType.enumerators.Nodup ∧
      AxisType.enumerators.length = 8 ∧
      AxisType.enumerators.map AxisType.code = [0, 1, 2, 3, 4, 5, 6, 22] ∧
      Function.Injective AxisType.code ∧
      (∀ n : Int, 7 ≤ n → n ≤ 21 →
        (∀ k : AxisType, k.code ≠ n) ∧ AxisType.ofCode n = none) ∧
      (∀ k : AxisType, AxisType.ofCode k.code = some k) := by
  refine ⟨?_, by decide, rfl, rfl, AxisType.axisCode_injective, ?_, ?_⟩
  · intro k
    cases k <;> decide
  · intro n h7 h21
    refine ⟨?_, ?_⟩
    · intro k hk
      cases k <;> simp only [AxisType.code] at hk <;> omega
    · interval_cases n <;> decide
  · intro k
    cases k <;> decide

/-! ## Keys wider than `int` -/

/-- C15 as stated fails: the layer holds the single key -1 and the `long` key 4294967295
(2^32 - 1) lies outside the `int` range, yet `curveIndex` reports it at position 0, where
`curveKey` returns -1 and not the key asked for. -/
theorem curveIndex_wide_key_mismatch :
    isLong 4294967295 ∧ ¬ isInt 4294967295 ∧
      0 ≤ curveIndex (layerWithKeys [CInt.ofLong (-1)]) 4294967295 ∧
      curveKey (layerWithKeys [CInt.ofLong (-1)])
          (curveIndex (layerWithKeys [CInt.ofLong (-1)]) 4294967295) = Except.ok (-1) ∧
      curveKey (layerWithKeys [CInt.ofLong (-1)])
          (curveIndex (layerWithKeys [CInt.ofLong (-1)]) 4294967295)
        ≠ Except.ok 4294967295 := by
  decide

/-- C15, amended: when `curveIndex(k)` returns an index `i >= 0`, `curveKey(i)` returns the key
`k` converted to `int`; for a key `k` of the `int` range that is `k` itself. -/
theorem curveKey_curveIndex (g : Graph) (k : Int) (h : 0 ≤ curveIndex g k) :
    curveKey g (curveIndex g k) = Except.ok (CInt.toLong (CInt.ofLong k)) ∧
      (isInt k → curveKey g (curveIndex g k) = Except.ok k) := by
  have hmem : CInt.ofLong k ∈ g.c_keys := by
    by_contra hnot
    have : curveIndex g k = -1 := indexOfLoop_not_mem _ _ 0 hnot
    omega
  obtain ⟨n, _, hres, hget, _⟩ := indexOfLoop_mem (CInt.ofLong k) g.c_keys 0 hmem
  have hidx : curveIndex g k = (n : Int) := by
    unfold curveIndex indexOf
    rw [hres]
    simp
  have hkey : curveKey g (curveIndex g k) = Except.ok (CInt.toLong (CInt.ofLong k)) := by
    unfold curveKey
    rw [hidx, vecAt_natCast g.c_keys n _ hget]
    rfl
  refine ⟨hkey, ?_⟩
  intro hk
  rw [hkey]
  exact congrArg Except.ok (wrapInt_of_isInt k hk)

/-- Witness for the amended C15: the key 3 in a layer with the keys 7, 3, 12. -/
theorem curveKey_curveIndex_witness :
    curveKey (layerWithKeys [CInt.ofLong 7, CInt.ofLong 3, CInt.ofLong 12])
        (curveIndex (layerWithKeys [CInt.ofLong 7, CInt.ofLong 3, CInt.ofLong 12]) 3)
        = Except.ok (CInt.toLong (CInt.ofLong 3)) ∧
      (isInt 3 →
        curveKey (layerWithKeys [CInt.ofLong 7, CInt.ofLong 3, CInt.ofLong 12])
          (curveIndex (layerWithKeys [CInt.ofLong 7, CInt.ofLong 3, CInt.ofLong 12]) 3)
          = Except.ok 3) :=
  curveKey_curveIndex (layerWithKeys [CInt.ofLong 7, CInt.ofLong 3, CInt.ofLong 12]) 3
    (by decide)

/-! ## Overloads with defaulted trailing arguments: results -/

/-- C16: the shorter `insertCurve` overloads are the full call with `startRow = 0` and
`endRow = -1` filled in, for the overloads with one column name and for those with the names of
an x and a y column. -/
theorem insertCurve_defaults {T R : Type}
    (insertCurve : T → String → Int → Int → Int → R)
    (insertCurveXY : T → String → String → Int → Int → Int → R)
    (w : T) (name xColName yColName : String) (style startRow : Int) :
    insertCurve3 insertCurve w name style = insertCurve w name style 0 (-1) ∧
      insertCurve4 insertCurve w name style startRow
        = insertCurve w name style startRow (-1) ∧
      insertCurveXY4 insertCurveXY w xColName yColName style
        = insertCurveXY w xColName yColName style 0 (-1) ∧
      insertCurveXY5 insertCurveXY w xColName yColName style startRow
        = insertCurveXY w xColName yColName style startRow (-1) :=
  ⟨rfl, rfl, rfl, rfl⟩

/-- C17: the shortest overload of each function-curve inserter is the full call with the
defaults filled in: `insertFunctionCurve(f)` with `0, 1, 100` and an empty title,
`insertParametricCurve(x, y)` with `0, 1, "t", 100` and an empty title, `insertPolarCurve(r, a)`
with `0, 2*M_PI, "t", 100` and an empty title; the longer overloads fill exactly their missing
trailing arguments. -/
theorem functionCurve_defaults {D R : Type} [OfNat D 0] [OfNat D 1] [OfNat D 2] [Mul D]
    (M_PI : D)
    (insertFunctionCurve : String → D → D → Int → String → R)
    (insertParametricCurve : String → String → D → D → String → Int → String → R)
    (insertPolarCurve : String → String → D → D → String → Int → String → R)
    (f x y r a parameter : String) (from_ to_ : D) (points : Int) :
    (insertFunctionCurve1 insertFunctionCurve f = insertFunctionCurve f 0 1 100 "" ∧
      insertFunctionCurve2 insertFunctionCurve f from_ = insertFunctionCurve f from_ 1 100 "" ∧
      insertFunctionCurve3 insertFunctionCurve f from_ to_
        = insertFunctionCurve f from_ to_ 100 "" ∧
      insertFunctionCurve4 insertFunctionCurve f from_ to_ points
        = insertFunctionCurve f from_ to_ points "") ∧
    (insertParametricCurve2 insertParametricCurve x y
        = insertParametricCurve x y 0 1 "t" 100 "" ∧
      insertParametricCurve3 insertParametricCurve x y from_
        = insertParametricCurve x y from_ 1 "t" 100 "" ∧
      insertParametricCurve4 insertParametricCurve x y from_ to_
        = insertParametricCurve x y from_ to_ "t" 100 "" ∧
      insertParametricCurve5 insertParametricCurve x y from_ to_ parameter
        = insertParametricCurve x y from_ to_ parameter 100 "" ∧
      insertParametricCurve6 insertParametricCurve x y from_ to_ parameter points
        = insertParametricCurve x y from_ to_ parameter points "") ∧
    (insertPolarCurve2 M_PI insertPolarCurve r a
        = insertPolarCurve r a 0 (2 * M_PI) "t" 100 "" ∧
      insertPolarCurve3 M_PI insertPolarCurve r a from_
        = insertPolarCurve r a from_ (2 * M_PI) "t" 100 "" ∧
      insertPolarCurve4 insertPolarCurve r a from_ to_
        = insertPolarCurve r a from_ to_ "t" 100 "" ∧
      insertPolarCurve5 insertPolarCurve r a from_ to_ parameter
        = insertPolarCurve r a from_ to_ parameter 100 "" ∧
      insertPolarCurve6 insertPolarCurve r a from_ to_ parameter points
        = insertPolarCurve r a from_ to_ parameter points "") :=
  ⟨⟨rfl, rfl, rfl, rfl⟩, ⟨rfl, rfl, rfl, rfl, rfl⟩, ⟨rfl, rfl, rfl, rfl, rfl⟩⟩

/-- C18: `addErrorBars(yColName, errTable, errColName)` is the call with ten arguments with
`type = 1, width = 1, cap = 8, color = black, through = true, minus = true, plus = true`; every
intermediate overload fills exactly its missing trailing arguments with these values, and a call
of the overload starting with `xColName, yColName` that leaves its default arguments out passes
the same values. -/
theorem addErrorBars_defaults {T R : Type} (black : QColor)
    (addErrorBars : String → T → String → Int → Int → Int → QColor → Bool → Bool → Bool → R)
    (addErrorBarsXY :
      String → String → T → String → Int → Int → Int → QColor → Bool → Bool → Bool → R)
    (xColName yColName : String) (errTable : T) (errColName : String) (type width cap : Int)
    (color : QColor) (through minus : Bool) :
    addErrorBars3 black addErrorBars yColName errTable errColName
        = addErrorBars yColName errTable errColName 1 1 8 black true true true ∧
      addErrorBars4 black addErrorBars yColName errTable errColName type
        = addErrorBars yColName errTable errColName type 1 8 black true true true ∧
      addErrorBars5 black addErrorBars yColName errTable errColName type width
        = addErrorBars yColName errTable errColName type width 8 black true true true ∧
      addErrorBars6 black addErrorBars yColName errTable errColName type width cap
        = addErrorBars yColName errTable errColName type width cap black true true true ∧
      addErrorBars7 addErrorBars yColName errTable errColName type width cap color
        = addErrorBars yColName errTable errColName type width cap color true true true ∧
      addErrorBars8 addErrorBars yColName errTable errColName type width cap color through
        = addErrorBars yColName errTable errColName type width cap color through true true ∧
      addErrorBars9 addErrorBars yColName errTable errColName type width cap color through minus
        = addErrorBars yColName errTable errColName type width cap color through minus true ∧
      addErrorBarsXY4 black addErrorBarsXY xColName yColName errTable errColName
        = addErrorBarsXY xColName yColName errTable errColName 1 1 8 black true true true :=
  ⟨rfl, rfl, rfl, rfl, rfl, rfl, rfl, rfl⟩

/-! ## Curve layout: results -/

theorem CurveLayout.write_cap_join (cl : CurveLayout) (w : LayoutWrite) :
    (cl.write w).lCapStyle = cl.lCapStyle ∧ (cl.write w).lJoinStyle = cl.lJoinStyle := by
  cases w <;> exact ⟨rfl, rfl⟩

theorem CurveLayout.writeAll_cap_join (cl : CurveLayout) (ws : List LayoutWrite) :
    (cl.writeAll ws).lCapStyle = cl.lCapStyle ∧ (cl.writeAll ws).lJoinStyle = cl.lJoinStyle := by
  induction ws generalizing cl with
  | nil => exact ⟨rfl, rfl⟩
  | cons w ws ih =>
    obtain ⟨h1, h2⟩ := ih (cl.write w)
    obtain ⟨h3, h4⟩ := CurveLayout.write_cap_join cl w
    exact ⟨h1.trans h3, h2.trans h4⟩

/-- C19: a `CurveLayout` defined without setting its members has cap style 0 and join style
0x40 = 64, whatever the other members hold (they have no default member initialiser and keep the
indeterminate values), and it still has them after any sequence of assignments to the other
members. -/
theorem CurveLayout_defaults (junk : CurveLayout) (ws : List LayoutWrite) :
    CInt.toLong (CurveLayout.defaultInit junk).lCapStyle = 0 ∧
      CInt.toLong (CurveLayout.defaultInit junk).lJoinStyle = 64 ∧
      CInt.toLong ((CurveLayout.defaultInit junk).writeAll ws).lCapStyle = 0 ∧
      CInt.toLong ((CurveLayout.defaultInit junk).writeAll ws).lJoinStyle = 64 ∧
      { CurveLayout.defaultInit junk with
          lCapStyle := junk.lCapStyle
          lJoinStyle := junk.lJoinStyle
          lCustomDash := junk.lCustomDash } = junk := by
  obtain ⟨h1, h2⟩ := CurveLayout.writeAll_cap_join (CurveLayout.defaultInit junk) ws
  have hcap : CInt.toLong (CurveLayout.defaultInit junk).lCapStyle = 0 := rfl
  have hjoin : CInt.toLong (CurveLayout.defaultInit junk).lJoinStyle = 64 := rfl
  refine ⟨hcap, hjoin, ?_, ?_, rfl⟩
  · rw [h1]
    exact hcap
  · rw [h2]
    exact hjoin

end SciDAVis
